import Mathlib

/-!
# gofcm: error taxonomy and response model

A shallow embedding of `response.go` (package `fcm`): the catalogue of error
values, the static table `errMap`, the two capability-carrying error types
`connectionError` and `serverError`, and the three classification functions
`GetErrorByString`, `IsUnregisteredErrorByError` and
`IsUnregisteredErrorByErrorString`.

Go's `error` is an interface.  A value of it is either `nil` or a pair of a
dynamic type and a value of that type; two interface values are `==` when
their dynamic types agree and their values are equal.  The values that occur
in `response.go` have one of three dynamic types:

* `*errors.errorString`, the pointer returned by `errors.New`; two such
  pointers are equal exactly when they come from the same call of `errors.New`;
* `connectionError`, a string type, compared by content;
* `serverError`, a string type, compared by content.

The response parser, the message validator, the send pipeline and the retry
controller are exercised by `client_test.go` but their code is not among the
sources; they are embedded from their written description, over the `Response`
and `Result` declarations of `response.go`, and each such definition says so.
-/

namespace fcm

/-! ## Error values -/

/-- The pointer returned by one call of `errors.New`: `alloc` identifies the
call (the position of the call in the `var` block of `response.go`), `s` is the
text the pointee holds.  It has an `Error` method and no other. -/
structure errorString where
  alloc : Nat
  s : String
deriving DecidableEq, Repr

/-- Method `Error` of `*errors.errorString`. -/
def errorString.Error (e : errorString) : String := e.s

/-- Source: `type connectionError string`. -/
structure connectionError where
  val : String
deriving DecidableEq, Repr

/-- Source: `func (err connectionError) Error() string`. -/
def connectionError.Error (err : connectionError) : String := err.val

/-- Source: `func (err connectionError) Temporary() bool`. -/
def connectionError.Temporary (_err : connectionError) : Bool := true

/-- Source: `func (err connectionError) Timeout() bool`. -/
def connectionError.Timeout (_err : connectionError) : Bool := true

/-- Source: `type serverError string`. -/
structure serverError where
  val : String
deriving DecidableEq, Repr

/-- Source: `func (err serverError) Error() string`. -/
def serverError.Error (err : serverError) : String := err.val

/-- Source: `func (serverError) Temporary() bool`. -/
def serverError.Temporary (_err : serverError) : Bool := true

/-- Source: `func (serverError) Timeout() bool`. -/
def serverError.Timeout (_err : serverError) : Bool := false

/-- A value of the interface type `error`, restricted to the dynamic types
that `response.go` puts into it. -/
inductive GoError where
  | nil
  | ofErrorString (p : errorString)
  | ofConnectionError (e : connectionError)
  | ofServerError (e : serverError)
deriving DecidableEq, Repr

namespace GoError

/-- The call `err.Error()` on a non-nil interface value. -/
def Error : GoError → Option String
  | nil => none
  | ofErrorString p => some p.Error
  | ofConnectionError e => some e.Error
  | ofServerError e => some e.Error

/-- The `Temporary` capability of an error value: `some b` when the dynamic
type has a method `Temporary() bool` (the type assertion to an interface with
that method succeeds) and the method returns `b`, `none` when the dynamic type
has no such method or the value is nil. -/
def Temporary : GoError → Option Bool
  | nil => none
  | ofErrorString _ => none
  | ofConnectionError e => some e.Temporary
  | ofServerError e => some e.Temporary

/-- The `Timeout` capability of an error value, read like `Temporary`. -/
def Timeout : GoError → Option Bool
  | nil => none
  | ofErrorString _ => none
  | ofConnectionError e => some e.Timeout
  | ofServerError e => some e.Timeout

end GoError

/-- The `n`-th call `errors.New(text)` of the package's `var` block. -/
def errorsNew (n : Nat) (text : String) : GoError :=
  GoError.ofErrorString ⟨n, text⟩

/-! ## The catalogue (`var ( ... )`, lines 7-54) -/

def ErrMissingRegistration : GoError := errorsNew 0 "missing registration token"

def ErrInvalidRegistration : GoError := errorsNew 1 "invalid registration token"

def ErrNotRegistered : GoError := errorsNew 2 "unregistered device"

def ErrInvalidPackageName : GoError := errorsNew 3 "invalid package name"

def ErrMismatchSenderID : GoError := errorsNew 4 "mismatched sender id"

def ErrMessageTooBig : GoError := errorsNew 5 "message is too big"

def ErrInvalidDataKey : GoError := errorsNew 6 "invalid data key"

def ErrInvalidTTL : GoError := errorsNew 7 "invalid time to live"

def ErrUnavailable : GoError := GoError.ofConnectionError ⟨"timeout"⟩

def ErrInternalServerError : GoError := GoError.ofServerError ⟨"internal server error"⟩

def ErrDeviceMessageRateExceeded : GoError := errorsNew 8 "device message rate exceeded"

def ErrTopicsMessageRateExceeded : GoError := errorsNew 9 "topics message rate exceeded"

def ErrInvalidParameters : GoError :=
  errorsNew 10 "check that the provided parameters have the right name and type"

def ErrUnknown : GoError := errorsNew 11 "unknown error type"

/-- The fourteen named error values of `response.go`, in declaration order. -/
def catalogue : List GoError :=
  [ErrMissingRegistration, ErrInvalidRegistration, ErrNotRegistered,
   ErrInvalidPackageName, ErrMismatchSenderID, ErrMessageTooBig,
   ErrInvalidDataKey, ErrInvalidTTL, ErrUnavailable, ErrInternalServerError,
   ErrDeviceMessageRateExceeded, ErrTopicsMessageRateExceeded,
   ErrInvalidParameters, ErrUnknown]

/-- Source: `errMap = map[string]error{ ... }`, as its list of entries. -/
def errMap : List (String × GoError) :=
  [("MissingRegistration", ErrMissingRegistration),
   ("InvalidRegistration", ErrInvalidRegistration),
   ("NotRegistered", ErrNotRegistered),
   ("InvalidPackageName", ErrInvalidPackageName),
   ("MismatchSenderId", ErrMismatchSenderID),
   ("MessageTooBig", ErrMessageTooBig),
   ("InvalidDataKey", ErrInvalidDataKey),
   ("InvalidTtl", ErrInvalidTTL),
   ("Unavailable", ErrUnavailable),
   ("InternalServerError", ErrInternalServerError),
   ("DeviceMessageRateExceeded", ErrDeviceMessageRateExceeded),
   ("TopicsMessageRateExceeded", ErrTopicsMessageRateExceeded),
   ("InvalidParameters", ErrInvalidParameters)]

/-- The keys of `errMap`. -/
def errKeys : List String := errMap.map Prod.fst

/-- Source: `func GetErrorByString(errString string) error`. -/
def GetErrorByString (errString : String) : GoError :=
  match errMap.lookup errString with
  | some val => val
  | none => ErrUnknown

/-- Source: `func IsUnregisteredErrorByError(err error) bool`. -/
def IsUnregisteredErrorByError (err : GoError) : Bool :=
  if err = ErrNotRegistered ∨ err = ErrMismatchSenderID ∨
      err = ErrMissingRegistration ∨ err = ErrInvalidRegistration then
    true
  else
    false

/-- Source: `func IsUnregisteredErrorByErrorString(errString string) bool`. -/
def IsUnregisteredErrorByErrorString (errString : String) : Bool :=
  let e := GetErrorByString errString
  if e = ErrNotRegistered ∨ e = ErrMismatchSenderID ∨
      e = ErrMissingRegistration ∨ e = ErrInvalidRegistration then
    true
  else
    false

/-! ## Response model (`type Response struct`, `type Result struct`) -/

/-- Source: `type Result struct`; the comments give the JSON tag of each field. -/
structure Result where
  /-- Tag `message_id`. -/
  MessageID : String
  /-- Tag `registration_id`. -/
  RegistrationID : String
  /-- Tag `error`. -/
  Error : String
deriving DecidableEq, Repr

/-- Source: `type Response struct`; the comments give the JSON tag of each
field.  `int64` and `int` fields are integers, kept in the 64-bit range by the
decoder. -/
structure Response where
  /-- Tag `multicast_id`, an `int64`. -/
  MulticastID : Int
  /-- Tag `success`, an `int`. -/
  Success : Int
  /-- Tag `failure`, an `int`. -/
  Failure : Int
  /-- Tag `canonical_ids`, an `int`. -/
  CanonicalIDs : Int
  /-- Tag `results`, a slice of `Result`. -/
  Results : List Result
  /-- Tag `failed_registration_ids`, a slice of strings. -/
  FailedRegistrationIDs : List String
  /-- Tag `message_id`, an `int64`. -/
  MessageID : Int
  /-- Tag `error`. -/
  Error : String
deriving DecidableEq, Repr

/-- The zero value of `Result`. -/
def Result.zero : Result := ⟨"", "", ""⟩

/-- The zero value of `Response`. -/
def Response.zero : Response := ⟨0, 0, 0, 0, [], [], 0, ""⟩

/-! ## JSON bodies -/

/-- A JSON text, as its tree.  `num` is a number literal with neither fraction
nor exponent, `frac` any other number literal (kept as its text). -/
inductive JSON where
  | null
  | bool (b : Bool)
  | num (n : Int)
  | frac (text : String)
  | str (s : String)
  | arr (xs : List JSON)
  | obj (kvs : List (String × JSON))

/-- Reasons for which a body is not decoded into the response model. -/
inductive DecodeError where
  /-- The body is not a JSON text. -/
  | malformed
  /-- The value found does not have the JSON shape the Go field requires. -/
  | wrongType (field : String)
deriving DecidableEq, Repr

/-- Whether an integer fits the 64-bit signed range of `int64` and `int`. -/
def inInt64 (n : Int) : Bool := decide (-(2 ^ 63) ≤ n) && decide (n < 2 ^ 63)

/-- Modelled from the spec: the Response Parser's decoding of a value into an
integer field (the decoder's code is not among the sources).  A JSON `null`
leaves the field as it is. -/
def decodeInt (field : String) (cur : Int) : JSON → Except DecodeError Int
  | .null => .ok cur
  | .num n => if inInt64 n then .ok n else .error (.wrongType field)
  | _ => .error (.wrongType field)

/-- Modelled from the spec: the Response Parser's decoding of a value into a
string field.  A JSON `null` leaves the field as it is. -/
def decodeString (field : String) (cur : String) : JSON → Except DecodeError String
  | .null => .ok cur
  | .str s => .ok s
  | _ => .error (.wrongType field)

/-- Decoding the elements of a JSON array one after the other, in order,
stopping at the first element that is rejected. -/
def decodeEach {α : Type} (f : JSON → Except DecodeError α) :
    List JSON → Except DecodeError (List α)
  | [] => .ok []
  | x :: xs =>
    match f x with
    | .error e => .error e
    | .ok a =>
      match decodeEach f xs with
      | .error e => .error e
      | .ok as => .ok (a :: as)

/-- Decoding the members of a JSON object one after the other, in order, each
into the field its key names, stopping at the first member that is rejected. -/
def decodeFields {α : Type} (set : α → String → JSON → Except DecodeError α) :
    α → List (String × JSON) → Except DecodeError α
  | r, [] => .ok r
  | r, kv :: rest =>
    match set r kv.1 kv.2 with
    | .error e => .error e
    | .ok r1 => decodeFields set r1 rest

/-- Modelled from the spec: the Response Parser's decoding of a value into a
slice of strings: an array of strings, or `null` for the empty slice. -/
def decodeStrings (field : String) : JSON → Except DecodeError (List String)
  | .null => .ok []
  | .arr xs => decodeEach (decodeString field "") xs
  | _ => .error (.wrongType field)

/-- Modelled from the spec: one member of a per-recipient result object is
stored in the field of `Result` whose JSON tag is the member's key; members
with other keys are skipped. -/
def Result.setField (r : Result) (k : String) (v : JSON) : Except DecodeError Result :=
  if k = "message_id" then
    (decodeString k r.MessageID v).map (fun s => { r with MessageID := s })
  else if k = "registration_id" then
    (decodeString k r.RegistrationID v).map (fun s => { r with RegistrationID := s })
  else if k = "error" then
    (decodeString k r.Error v).map (fun s => { r with Error := s })
  else
    .ok r

/-- Modelled from the spec: the Response Parser's decoding of one element of
`results` into a `Result`. -/
def decodeResult : JSON → Except DecodeError Result
  | .null => .ok Result.zero
  | .obj kvs => decodeFields Result.setField Result.zero kvs
  | _ => .error (.wrongType "results")

/-- Modelled from the spec: the Response Parser's decoding of the `results`
member: its JSON shape must be an array; an object there is rejected. -/
def decodeResults : JSON → Except DecodeError (List Result)
  | .null => .ok []
  | .arr xs => decodeEach decodeResult xs
  | _ => .error (.wrongType "results")

/-- Modelled from the spec: one member of the body is stored in the field of
`Response` whose JSON tag is the member's key; members with other keys are
skipped. -/
def Response.setField (r : Response) (k : String) (v : JSON) : Except DecodeError Response :=
  if k = "multicast_id" then
    (decodeInt k r.MulticastID v).map (fun n => { r with MulticastID := n })
  else if k = "success" then
    (decodeInt k r.Success v).map (fun n => { r with Success := n })
  else if k = "failure" then
    (decodeInt k r.Failure v).map (fun n => { r with Failure := n })
  else if k = "canonical_ids" then
    (decodeInt k r.CanonicalIDs v).map (fun n => { r with CanonicalIDs := n })
  else if k = "results" then
    (decodeResults v).map (fun rs => { r with Results := rs })
  else if k = "failed_registration_ids" then
    (decodeStrings k v).map (fun ids => { r with FailedRegistrationIDs := ids })
  else if k = "message_id" then
    (decodeInt k r.MessageID v).map (fun n => { r with MessageID := n })
  else if k = "error" then
    (decodeString k r.Error v).map (fun s => { r with Error := s })
  else
    .ok r

/-- Modelled from the spec: the Response Parser (section 4.4), whose code is
not among the sources: it decodes the JSON body into the Response Model,
`Response` of `response.go`, and adds no validation of its own. -/
def decodeResponse : JSON → Except DecodeError Response
  | .null => .ok Response.zero
  | .obj kvs => decodeFields Response.setField Response.zero kvs
  | _ => .error (.wrongType "Response")

/-- Modelled from the spec: `parse` applied to a raw body, `none` standing for
a body that is not a JSON text (the empty body among them). -/
def parse : Option JSON → Except DecodeError Response
  | none => .error .malformed
  | some v => decodeResponse v

/-! ## The body's values, read member by member -/

/-- The integer a member holds: the number itself, zero when the member is
absent or `null`. -/
def intOf : Option JSON → Int
  | some (.num n) => n
  | _ => 0

/-- The string a member holds, empty when the member is absent or `null`. -/
def strOf : Option JSON → String
  | some (.str s) => s
  | _ => ""

/-- The strings of an array member, in order. -/
def strsOf : Option JSON → List String
  | some (.arr xs) => xs.map (fun x => strOf (some x))
  | _ => []

/-- The three strings of one element of `results`. -/
def resultOf : JSON → Result
  | .obj kvs =>
    { MessageID := strOf (kvs.lookup "message_id")
      RegistrationID := strOf (kvs.lookup "registration_id")
      Error := strOf (kvs.lookup "error") }
  | _ => Result.zero

/-- The elements of the `results` member, in order. -/
def resultsOf : Option JSON → List Result
  | some (.arr xs) => xs.map resultOf
  | _ => []

/-- The response that holds the values of the body's members unchanged: what
the documented wire format says a body with members `kvs` means. -/
def verbatim (kvs : List (String × JSON)) : Response :=
  { MulticastID := intOf (kvs.lookup "multicast_id")
    Success := intOf (kvs.lookup "success")
    Failure := intOf (kvs.lookup "failure")
    CanonicalIDs := intOf (kvs.lookup "canonical_ids")
    Results := resultsOf (kvs.lookup "results")
    FailedRegistrationIDs := strsOf (kvs.lookup "failed_registration_ids")
    MessageID := intOf (kvs.lookup "message_id")
    Error := strOf (kvs.lookup "error") }

/-- The integer a member holds, `d` when the member is absent or `null`. -/
def intOr (d : Int) : Option JSON → Int
  | some (.num n) => n
  | _ => d

/-- The string a member holds, `d` when the member is absent or `null`. -/
def strOr (d : String) : Option JSON → String
  | some (.str s) => s
  | _ => d

/-- The result `r` with each field replaced by the value of the member of
`kvs` that names it, where there is one. -/
def Result.overlay (r : Result) (kvs : List (String × JSON)) : Result :=
  { MessageID := strOr r.MessageID (kvs.lookup "message_id")
    RegistrationID := strOr r.RegistrationID (kvs.lookup "registration_id")
    Error := strOr r.Error (kvs.lookup "error") }

/-- The response `r` with each field replaced by the value of the member of
`kvs` that names it, where there is one. -/
def Response.overlay (r : Response) (kvs : List (String × JSON)) : Response :=
  { MulticastID := intOr r.MulticastID (kvs.lookup "multicast_id")
    Success := intOr r.Success (kvs.lookup "success")
    Failure := intOr r.Failure (kvs.lookup "failure")
    CanonicalIDs := intOr r.CanonicalIDs (kvs.lookup "canonical_ids")
    Results :=
      match kvs.lookup "results" with
      | none => r.Results
      | some v => resultsOf (some v)
    FailedRegistrationIDs :=
      match kvs.lookup "failed_registration_ids" with
      | none => r.FailedRegistrationIDs
      | some v => strsOf (some v)
    MessageID := intOr r.MessageID (kvs.lookup "message_id")
    Error := strOr r.Error (kvs.lookup "error") }

/-- A value of the documented type `int64` or `int` (or `null`). -/
def okInt : JSON → Bool
  | .null => true
  | .num n => inInt64 n
  | _ => false

/-- A value of the documented type `string` (or `null`). -/
def okStr : JSON → Bool
  | .null => true
  | .str _ => true
  | _ => false

/-- A value that is an array of strings (or `null`). -/
def okStrs : JSON → Bool
  | .null => true
  | .arr xs => xs.all okStr
  | _ => false

/-- A member of a result object has the documented type for its key. -/
def okResultField (kv : String × JSON) : Bool :=
  if kv.1 = "message_id" ∨ kv.1 = "registration_id" ∨ kv.1 = "error" then okStr kv.2
  else true

/-- An element of `results`: an object with distinct keys whose documented
members are strings (or `null`). -/
def okResult : JSON → Bool
  | .null => true
  | .obj kvs => decide (kvs.map Prod.fst).Nodup && kvs.all okResultField
  | _ => false

/-- A value of the documented type of `results`: an array of result objects
(or `null`). -/
def okResults : JSON → Bool
  | .null => true
  | .arr xs => xs.all okResult
  | _ => false

/-- A member of the body has the documented type for its key; members whose
key the wire format does not name are unconstrained. -/
def okField (kv : String × JSON) : Bool :=
  if kv.1 = "multicast_id" ∨ kv.1 = "success" ∨ kv.1 = "failure" ∨
      kv.1 = "canonical_ids" ∨ kv.1 = "message_id" then okInt kv.2
  else if kv.1 = "results" then okResults kv.2
  else if kv.1 = "failed_registration_ids" then okStrs kv.2
  else if kv.1 = "error" then okStr kv.2
  else true

/-- A well-shaped body: an object with distinct keys, each documented member of
its documented type. -/
def wellShaped (kvs : List (String × JSON)) : Bool :=
  decide (kvs.map Prod.fst).Nodup && kvs.all okField

/-! ## Send pipeline and retry controller -/

/-- Modelled from the spec: the Message of section 3 (its declaration is not
among the sources): the three target fields, the payload and the delivery
hints. -/
structure Message where
  To : String
  RegistrationIDs : List String
  Condition : String
  Data : List (String × JSON)
  Priority : String
  TimeToLive : Option Nat

/-- Modelled from the spec: the Message Validator (section 4.2), whose code is
not among the sources: it fails with `ErrInvalidParameters` when none of the
target fields is set, and returns the nil error otherwise. -/
def Message.Validate (m : Message) : GoError :=
  if m.To = "" ∧ m.RegistrationIDs = [] ∧ m.Condition = "" then ErrInvalidParameters
  else GoError.nil

/-- What one HTTP round trip yields: a transport-level failure, or a status
code with a raw body (`none` for a body that is not a JSON text). -/
inductive Outcome where
  | failed (reason : String)
  | reply (status : Nat) (body : Option JSON)

/-- The injected HTTP capability together with the service behind it: the
outcome of the round trip number `i` (counted from zero) for a message. -/
abbrev Service := Nat → Message → Outcome

/-- The error of one run of the send pipeline. -/
inductive SendError where
  /-- An error kind of the taxonomy, handed on as it is. -/
  | kind (e : GoError)
  /-- The generic send failure for a status outside 2xx. -/
  | sendFailure (status : Nat)
  /-- The body of a 2xx reply was not decoded. -/
  | parse (e : DecodeError)
deriving DecidableEq, Repr

/-- Modelled from the spec: the classification the Retry Controller applies to
a failure (section 4.6, steps 3 and 4; section 7): an error kind is retryable
when its `Temporary` capability flag is true, a status outside 2xx is
retryable, a body that does not decode is not. -/
def SendError.retryable : SendError → Bool
  | .kind e => e.Temporary == some true
  | .sendFailure _ => true
  | .parse _ => false

/-- What `send` and `sendWithRetry` return: the response (`none` for nil), the
raw body when a response was parsed, and the error (`none` for nil). -/
structure SendResult where
  resp : Option Response
  raw : Option JSON
  err : Option SendError

/-- The observable effects of a client on the outside world: the number of
round trips made so far and the backoff delays waited so far, oldest first. -/
structure Wire where
  calls : Nat
  delays : List Nat
deriving DecidableEq, Repr

/-- A status code of the 2xx class. -/
def is2xx (status : Nat) : Bool := decide (200 ≤ status) && decide (status ≤ 299)

/-- Modelled from the spec: the Send Pipeline (section 4.5) over the Transport
Adapter (section 4.3), whose code is not among the sources: validate, then one
round trip, then parse on a 2xx status.  A failure of any stage gives a nil
response and a non-nil error; a failed validation makes no round trip. -/
def Send (svc : Service) (w : Wire) (m : Message) : SendResult × Wire :=
  if m.Validate ≠ GoError.nil then
    (⟨none, none, some (.kind m.Validate)⟩, w)
  else
    let w1 : Wire := { w with calls := w.calls + 1 }
    match svc w.calls m with
    | .failed reason => (⟨none, none, some (.kind (.ofConnectionError ⟨reason⟩))⟩, w1)
    | .reply status body =>
      if is2xx status then
        match parse body with
        | .ok r => (⟨some r, body, none⟩, w1)
        | .error e => (⟨none, none, some (.parse e)⟩, w1)
      else
        (⟨none, none, some (.sendFailure status)⟩, w1)

/-- Modelled from the spec: the loop of the Retry Controller (section 4.6),
whose code is not among the sources.  `remaining` attempts are left, the next
one has number `attempt`; `backoff i` is the delay waited after attempt `i`
failed.  A success returns at once, so does a failure that is not retryable;
a retryable failure is followed by a wait and the next attempt while attempts
remain, and is returned when none remains. -/
def attemptLoop (svc : Service) (backoff : Nat → Nat) (m : Message) :
    Nat → Nat → Wire → SendResult × Wire
  | 0, _, w => (⟨none, none, none⟩, w)
  | n + 1, attempt, w =>
    match Send svc w m with
    | (r, w1) =>
      match r.err with
      | none => (r, w1)
      | some e =>
        if e.retryable then
          if n = 0 then (r, w1)
          else attemptLoop svc backoff m n (attempt + 1)
            { w1 with delays := w1.delays ++ [backoff attempt] }
        else (r, w1)

/-- Modelled from the spec: `sendWithRetry(message, maxAttempts)` of section
4.6: the attempts are numbered from 1 to `maxAttempts`. -/
def SendWithRetry (svc : Service) (backoff : Nat → Nat) (w : Wire) (m : Message)
    (maxAttempts : Nat) : SendResult × Wire :=
  attemptLoop svc backoff m maxAttempts 1 w

/-- A round trip that failed in a way the Retry Controller retries: a
transport-level failure or a status outside 2xx. -/
def Outcome.transient : Outcome → Bool
  | .failed _ => true
  | .reply status _ => !is2xx status

/-! ## The bodies and messages of `client_test.go` -/

/-- The message every test of `client_test.go` sends:
`Message{To: "test", Data: {"foo": "bar"}}`. -/
def testMessage : Message :=
  { To := "test", RegistrationIDs := [], Condition := "",
    Data := [("foo", .str "bar")], Priority := "", TimeToLive := none }

/-- The members of the body of the tests `send=success` and
`send_with_retry=success`. -/
def successMembers : List (String × JSON) :=
  [("success", .num 1), ("failure", .num 0),
    ("results", .arr [.obj [("message_id", .str "q1w2e3r4"),
      ("registration_id", .str "t5y6u7i8o9"), ("error", .str "")]])]

/-- The body of the tests `send=success` and `send_with_retry=success`. -/
def successBody : JSON := .obj successMembers

/-- The members of the body of the test `send=invalid-response`: `results` is
an object. -/
def invalidMembers : List (String × JSON) :=
  [("success", .num 1), ("failure", .num 0),
    ("results", .obj [("message_id", .str "q1w2e3r4"),
      ("registration_id", .str "t5y6u7i8o9"), ("error", .str "")])]

/-- The body of the test `send=invalid-response`. -/
def invalidBody : JSON := .obj invalidMembers

/-- The server of the tests `send=success` and `send_with_retry=success`:
status 200 and the success body on every request. -/
def successServer : Service := fun _ _ => .reply 200 (some successBody)

/-- The server of the test `send=invalid-response`: status 200 and the body
whose `results` is an object. -/
def invalidServer : Service := fun _ _ => .reply 200 (some invalidBody)

/-- The server of the test `send_with_retry=success_retry`: status 500 on the
first two requests, status 200 from the third on, the same body each time. -/
def retryServer : Service := fun i _ =>
  if i + 1 < 3 then .reply 500 (some successBody) else .reply 200 (some successBody)

/-- The message of the test `send=invalid_message`: `Message{}`, no target
field set. -/
def emptyMessage : Message :=
  { To := "", RegistrationIDs := [], Condition := "",
    Data := [], Priority := "", TimeToLive := none }

/-- The server of the tests `send=failure` and `send_with_retry=failure`:
status 400 and an empty body on every request. -/
def failureServer : Service := fun _ _ => .reply 400 none

/-- The host of the test `send_with_retry=failure_retry`: every round trip
fails at the transport level. -/
def unreachableHost : Service := fun _ _ => .failed "timeout"

/-! ## The shapes of a response -/

/-- The multicast shape holds data: `Results` is not empty. -/
def Response.multicastShape (r : Response) : Bool := !r.Results.isEmpty

/-- The device-group shape holds data: `FailedRegistrationIDs` is not empty. -/
def Response.deviceGroupShape (r : Response) : Bool := !r.FailedRegistrationIDs.isEmpty

/-- The topic shape holds data: `MessageID` is not zero or `Error` is not
empty. -/
def Response.topicShape (r : Response) : Bool :=
  decide (r.MessageID ≠ 0) || decide (r.Error ≠ "")

/-- The number of shapes of a response that hold data. -/
def Response.shapes (r : Response) : Nat :=
  r.multicastShape.toNat + r.deviceGroupShape.toNat + r.topicShape.toNat

/-- The body carries multicast data: its `results` member is an array with at
least one element. -/
def bodyMulticast (kvs : List (String × JSON)) : Bool :=
  match kvs.lookup "results" with
  | some (.arr (_ :: _)) => true
  | _ => false

/-- The body carries device-group data: its `failed_registration_ids` member
is an array with at least one element. -/
def bodyDeviceGroup (kvs : List (String × JSON)) : Bool :=
  match kvs.lookup "failed_registration_ids" with
  | some (.arr (_ :: _)) => true
  | _ => false

/-- The body carries topic data: its `message_id` member is a number other
than zero, or its `error` member is a string other than the empty one. -/
def bodyTopic (kvs : List (String × JSON)) : Bool :=
  (match kvs.lookup "message_id" with
    | some (.num n) => decide (n ≠ 0)
    | _ => false) ||
  (match kvs.lookup "error" with
    | some (.str s) => decide (s ≠ "")
    | _ => false)

/-- The number of shapes the body carries data for. -/
def bodyShapes (kvs : List (String × JSON)) : Nat :=
  (bodyMulticast kvs).toNat + (bodyDeviceGroup kvs).toNat + (bodyTopic kvs).toNat

/-- A reply to a device-group send in which every member was reached: two
counts and no list of failed registration ids. -/
def groupAllDelivered : List (String × JSON) :=
  [("success", .num 2), ("failure", .num 0)]

/-- A body that carries a `results` array next to a topic `message_id`. -/
def resultsAndTopic : List (String × JSON) :=
  [("results", .arr [.obj [("message_id", .str "q1w2e3r4")]]), ("message_id", .num 5)]

/-! ## Lemmas on the table -/

theorem lookup_some_mem {β : Type} (s : String) (v : β) :
    ∀ l : List (String × β), l.lookup s = some v → (s, v) ∈ l := by
  intro l
  induction l with
  | nil => intro h; simp at h
  | cons kv rest ih =>
    obtain ⟨k, b⟩ := kv
    intro h
    rw [List.lookup_cons] at h
    by_cases hk : s = k
    · subst hk
      simp at h
      simp [h]
    · have hb : (s == k) = false := by simpa using hk
      rw [hb] at h
      exact List.mem_cons_of_mem _ (ih h)

theorem lookup_none_of_not_mem {β : Type} (s : String) :
    ∀ l : List (String × β), s ∉ l.map Prod.fst → l.lookup s = none := by
  intro l
  induction l with
  | nil => intro _; rfl
  | cons kv rest ih =>
    obtain ⟨k, b⟩ := kv
    intro h
    simp only [List.map_cons, List.mem_cons, not_or] at h
    have hb : (s == k) = false := by simpa using h.1
    rw [List.lookup_cons, hb]
    exact ih h.2

/-- Every entry of the table is what `GetErrorByString` returns for its key. -/
theorem errMap_entries : ∀ kv ∈ errMap, GetErrorByString kv.1 = kv.2 := by decide

/-- `GetErrorByString` returns `ErrUnknown` or the value of an entry whose key
is the argument. -/
theorem GetErrorByString_cases (s : String) :
    (s ∉ errKeys ∧ GetErrorByString s = ErrUnknown) ∨
      (s ∈ errKeys ∧ (s, GetErrorByString s) ∈ errMap) := by
  unfold GetErrorByString
  cases h : errMap.lookup s with
  | none =>
    left
    refine ⟨?_, rfl⟩
    intro hmem
    have := (List.lookup_eq_none_iff (l := errMap) (k := s)).1 h
    simp only [errKeys, List.mem_map] at hmem
    obtain ⟨kv, hkv, hs⟩ := hmem
    have := this kv hkv
    simp [hs] at this
  | some v =>
    right
    have hm := lookup_some_mem s v errMap h
    exact ⟨List.mem_map.2 ⟨(s, v), hm, rfl⟩, hm⟩

theorem GetErrorByString_of_not_key (s : String) (h : s ∉ errKeys) :
    GetErrorByString s = ErrUnknown := by
  unfold GetErrorByString
  rw [lookup_none_of_not_mem s errMap h]

/-! ## Lemmas on the decoder -/

theorem lookup_cons_of_ne {β : Type} (a k : String) (v : β) (l : List (String × β))
    (h : a ≠ k) : List.lookup a ((k, v) :: l) = List.lookup a l := by
  have hb : (a == k) = false := by simpa using h
  rw [List.lookup_cons, hb]

theorem decodeResult_fields (kvs : List (String × JSON)) :
    ∀ r : Result, (kvs.map Prod.fst).Nodup → kvs.all okResultField = true →
      decodeFields Result.setField r kvs = .ok (r.overlay kvs) := by
  induction kvs with
  | nil => intro r _ _; rfl
  | cons kv rest ih =>
    obtain ⟨k, v⟩ := kv
    intro r hnd hok
    simp only [List.map_cons, List.nodup_cons] at hnd
    simp only [List.all_cons, Bool.and_eq_true] at hok
    have hnone := lookup_none_of_not_mem k rest hnd.1
    have hrest := fun r1 => ih r1 hnd.2 hok.2
    have hf := hok.1
    unfold okResultField at hf
    simp only at hf
    by_cases h1 : k = "message_id"
    · subst h1
      cases v <;> simp [okStr] at hf <;>
        simp [decodeFields, Result.setField, decodeString, Except.map, hrest,
          Result.overlay, hnone, strOr, lookup_cons_of_ne]
    by_cases h2 : k = "registration_id"
    · subst h2
      cases v <;> simp [okStr] at hf <;>
        simp [decodeFields, Result.setField, decodeString, Except.map, hrest,
          Result.overlay, hnone, strOr, lookup_cons_of_ne]
    by_cases h3 : k = "error"
    · subst h3
      cases v <;> simp [okStr] at hf <;>
        simp [decodeFields, Result.setField, decodeString, Except.map, hrest,
          Result.overlay, hnone, strOr, lookup_cons_of_ne]
    have n1 : "message_id" ≠ k := fun h => h1 h.symm
    have n2 : "registration_id" ≠ k := fun h => h2 h.symm
    have n3 : "error" ≠ k := fun h => h3 h.symm
    simp [decodeFields, Result.setField, h1, h2, h3, hrest, Result.overlay,
      lookup_cons_of_ne, n1, n2, n3]

theorem strOr_empty (o : Option JSON) : strOr "" o = strOf o := by
  unfold strOr strOf
  split <;> rfl

theorem intOr_zero (o : Option JSON) : intOr 0 o = intOf o := by
  unfold intOr intOf
  split <;> rfl

theorem decodeEach_map {α : Type} (f : JSON → Except DecodeError α) (g : JSON → α) :
    ∀ xs : List JSON, (∀ x ∈ xs, f x = .ok (g x)) → decodeEach f xs = .ok (xs.map g) := by
  intro xs
  induction xs with
  | nil => intro _; rfl
  | cons x rest ih =>
    intro h
    have hx := h x (List.mem_cons_self _ _)
    have hr := ih (fun y hy => h y (List.mem_cons_of_mem _ hy))
    simp [decodeEach, hx, hr]

theorem decodeString_ok (field : String) (x : JSON) (h : okStr x = true) :
    decodeString field "" x = .ok (strOf (some x)) := by
  cases x <;> simp [okStr] at h <;> rfl

theorem decodeResult_ok (x : JSON) (h : okResult x = true) :
    decodeResult x = .ok (resultOf x) := by
  cases x <;> simp [okResult] at h
  · rfl
  · rename_i kvs
    show decodeFields Result.setField Result.zero kvs = _
    rw [decodeResult_fields kvs Result.zero h.1 (by simpa using h.2)]
    simp [Result.overlay, resultOf, Result.zero, strOr_empty]

theorem decodeResults_ok (v : JSON) (h : okResults v = true) :
    decodeResults v = .ok (resultsOf (some v)) := by
  cases v <;> simp [okResults] at h
  · rfl
  · rename_i xs
    show decodeEach decodeResult xs = _
    rw [decodeEach_map decodeResult resultOf xs (fun x hx => decodeResult_ok x (h x hx))]
    rfl

theorem decodeStrings_ok (field : String) (v : JSON) (h : okStrs v = true) :
    decodeStrings field v = .ok (strsOf (some v)) := by
  cases v <;> simp [okStrs] at h
  · rfl
  · rename_i xs
    show decodeEach (decodeString field "") xs = _
    rw [decodeEach_map (decodeString field "") (fun x => strOf (some x)) xs
      (fun x hx => decodeString_ok field x (h x hx))]
    rfl

theorem decodeResponse_fields (kvs : List (String × JSON)) :
    ∀ r : Response, (kvs.map Prod.fst).Nodup → kvs.all okField = true →
      decodeFields Response.setField r kvs = .ok (r.overlay kvs) := by
  induction kvs with
  | nil => intro r _ _; rfl
  | cons kv rest ih =>
    obtain ⟨k, v⟩ := kv
    intro r hnd hok
    simp only [List.map_cons, List.nodup_cons] at hnd
    simp only [List.all_cons, Bool.and_eq_true] at hok
    have hnone := lookup_none_of_not_mem k rest hnd.1
    have hrest := fun r1 => ih r1 hnd.2 hok.2
    have hf := hok.1
    unfold okField at hf
    simp only at hf
    by_cases h1 : k = "multicast_id"
    · subst h1
      cases v <;> simp [okInt] at hf <;>
        simp [decodeFields, Response.setField, decodeInt, Except.map, hrest,
          Response.overlay, hnone, intOr, lookup_cons_of_ne, hf]
    by_cases h2 : k = "success"
    · subst h2
      cases v <;> simp [okInt] at hf <;>
        simp [decodeFields, Response.setField, decodeInt, Except.map, hrest,
          Response.overlay, hnone, intOr, lookup_cons_of_ne, hf]
    by_cases h3 : k = "failure"
    · subst h3
      cases v <;> simp [okInt] at hf <;>
        simp [decodeFields, Response.setField, decodeInt, Except.map, hrest,
          Response.overlay, hnone, intOr, lookup_cons_of_ne, hf]
    by_cases h4 : k = "canonical_ids"
    · subst h4
      cases v <;> simp [okInt] at hf <;>
        simp [decodeFields, Response.setField, decodeInt, Except.map, hrest,
          Response.overlay, hnone, intOr, lookup_cons_of_ne, hf]
    by_cases h5 : k = "results"
    · subst h5
      simp at hf
      simp [decodeFields, Response.setField, decodeResults_ok v hf, Except.map, hrest,
        Response.overlay, hnone, lookup_cons_of_ne]
    by_cases h6 : k = "failed_registration_ids"
    · subst h6
      simp at hf
      simp [decodeFields, Response.setField, decodeStrings_ok _ v hf, Except.map, hrest,
        Response.overlay, hnone, lookup_cons_of_ne]
    by_cases h7 : k = "message_id"
    · subst h7
      cases v <;> simp [okInt] at hf <;>
        simp [decodeFields, Response.setField, decodeInt, Except.map, hrest,
          Response.overlay, hnone, intOr, lookup_cons_of_ne, hf]
    by_cases h8 : k = "error"
    · subst h8
      cases v <;> simp [okStr] at hf <;>
        simp [decodeFields, Response.setField, decodeString, Except.map, hrest,
          Response.overlay, hnone, strOr, lookup_cons_of_ne]
    have n1 : "multicast_id" ≠ k := fun h => h1 h.symm
    have n2 : "success" ≠ k := fun h => h2 h.symm
    have n3 : "failure" ≠ k := fun h => h3 h.symm
    have n4 : "canonical_ids" ≠ k := fun h => h4 h.symm
    have n5 : "results" ≠ k := fun h => h5 h.symm
    have n6 : "failed_registration_ids" ≠ k := fun h => h6 h.symm
    have n7 : "message_id" ≠ k := fun h => h7 h.symm
    have n8 : "error" ≠ k := fun h => h8 h.symm
    simp [decodeFields, Response.setField, h1, h2, h3, h4, h5, h6, h7, h8, hrest,
      Response.overlay, lookup_cons_of_ne, n1, n2, n3, n4, n5, n6, n7, n8]

theorem overlay_zero (kvs : List (String × JSON)) :
    Response.zero.overlay kvs = verbatim kvs := by
  simp only [Response.overlay, verbatim, Response.zero, intOr_zero, strOr_empty]
  congr 1
  · cases kvs.lookup "results" <;> rfl
  · cases kvs.lookup "failed_registration_ids" <;> rfl

/-- A well-shaped body decodes, and into the response that holds its values. -/
theorem decodeResponse_wellShaped (kvs : List (String × JSON))
    (h : wellShaped kvs = true) : decodeResponse (.obj kvs) = .ok (verbatim kvs) := by
  unfold wellShaped at h
  simp only [Bool.and_eq_true, decide_eq_true_eq] at h
  show decodeFields Response.setField Response.zero kvs = _
  rw [decodeResponse_fields kvs Response.zero h.1 h.2, overlay_zero]

/-- A body with a member `results` that is an object does not decode, whatever
the other members are and whatever was decoded before. -/
theorem decodeFields_results_object (o : List (String × JSON)) :
    ∀ (kvs : List (String × JSON)) (r : Response), ("results", JSON.obj o) ∈ kvs →
      ∃ e, decodeFields Response.setField r kvs = .error e := by
  intro kvs
  induction kvs with
  | nil => intro r h; simp at h
  | cons kv rest ih =>
    intro r h
    unfold decodeFields
    rcases List.mem_cons.1 h with h | h
    · subst h
      exact ⟨.wrongType "results", rfl⟩
    · cases hs : Response.setField r kv.1 kv.2 with
      | error e => exact ⟨e, rfl⟩
      | ok r1 => exact ih r1 h

/-- The shapes of the response that holds the body's values are the shapes
the body carries data for. -/
theorem verbatim_shapes (kvs : List (String × JSON)) :
    (verbatim kvs).multicastShape = bodyMulticast kvs ∧
    (verbatim kvs).deviceGroupShape = bodyDeviceGroup kvs ∧
    (verbatim kvs).topicShape = bodyTopic kvs := by
  refine ⟨?_, ?_, ?_⟩
  · simp only [Response.multicastShape, verbatim, bodyMulticast]
    cases kvs.lookup "results" with
    | none => rfl
    | some v =>
      cases v with
      | arr xs => cases xs <;> rfl
      | _ => rfl
  · simp only [Response.deviceGroupShape, verbatim, bodyDeviceGroup]
    cases kvs.lookup "failed_registration_ids" with
    | none => rfl
    | some v =>
      cases v with
      | arr xs => cases xs <;> rfl
      | _ => rfl
  · simp only [Response.topicShape, verbatim, bodyTopic]
    have h1 : decide (intOf (kvs.lookup "message_id") ≠ 0) =
        (match kvs.lookup "message_id" with
          | some (.num n) => decide (n ≠ 0)
          | _ => false) := by
      cases kvs.lookup "message_id" with
      | none => rfl
      | some v => cases v <;> rfl
    have h2 : decide (strOf (kvs.lookup "error") ≠ "") =
        (match kvs.lookup "error" with
          | some (.str s) => decide (s ≠ "")
          | _ => false) := by
      cases kvs.lookup "error" with
      | none => rfl
      | some v => cases v <;> rfl
    rw [h1, h2]

/-! ## Lemmas on the send pipeline -/

/-- A valid message answered by a 2xx status and a body that decodes: `Send`
returns the decoded response and the body, with one round trip made. -/
theorem Send_success (svc : Service) (w : Wire) (m : Message) (status : Nat)
    (body : JSON) (r : Response) (hm : m.Validate = GoError.nil)
    (hreply : svc w.calls m = .reply status (some body)) (hs : is2xx status = true)
    (hdec : decodeResponse body = .ok r) :
    Send svc w m = (⟨some r, some body, none⟩, ⟨w.calls + 1, w.delays⟩) := by
  simp [Send, hm, hreply, hs, parse, hdec]

/-- A valid message answered by a 2xx status and a body that does not decode:
`Send` returns the parse error and no response, with one round trip made. -/
theorem Send_parse_error (svc : Service) (w : Wire) (m : Message) (status : Nat)
    (body : JSON) (e : DecodeError) (hm : m.Validate = GoError.nil)
    (hreply : svc w.calls m = .reply status (some body)) (hs : is2xx status = true)
    (hdec : decodeResponse body = .error e) :
    Send svc w m = (⟨none, none, some (.parse e)⟩, ⟨w.calls + 1, w.delays⟩) := by
  simp [Send, hm, hreply, hs, parse, hdec]

/-- A valid message whose round trip fails transiently: `Send` returns a
retryable error and no response, with one round trip made. -/
theorem Send_transient (svc : Service) (w : Wire) (m : Message)
    (hm : m.Validate = GoError.nil) (ht : (svc w.calls m).transient = true) :
    ∃ e, Send svc w m = (⟨none, none, some e⟩, ⟨w.calls + 1, w.delays⟩) ∧
      e.retryable = true := by
  cases hreply : svc w.calls m with
  | failed reason =>
    refine ⟨.kind (.ofConnectionError ⟨reason⟩), ?_, rfl⟩
    simp [Send, hm, hreply]
  | reply status body =>
    rw [hreply] at ht
    have hs : is2xx status = false := by simpa [Outcome.transient] using ht
    refine ⟨.sendFailure status, ?_, rfl⟩
    simp [Send, hm, hreply, hs]

/-- The retry loop against a service that fails transiently `j` times and then
answers with a 2xx status and a body that decodes, with more than `j` attempts
left: the loop returns that response after `j + 1` round trips and `j` waits. -/
theorem attemptLoop_success_after (svc : Service) (backoff : Nat → Nat) (m : Message)
    (status : Nat) (body : JSON) (r : Response) (hm : m.Validate = GoError.nil)
    (hs : is2xx status = true) (hdec : decodeResponse body = .ok r) :
    ∀ (j n a : Nat) (w : Wire),
      (∀ i, i < j → (svc (w.calls + i) m).transient = true) →
      svc (w.calls + j) m = .reply status (some body) →
      attemptLoop svc backoff m (j + n + 1) a w =
        (⟨some r, some body, none⟩,
          ⟨w.calls + j + 1, w.delays ++ (List.range j).map (fun i => backoff (a + i))⟩) := by
  intro j
  induction j with
  | zero =>
    intro n a w _ hok
    rw [attemptLoop, Send_success svc w m status body r hm (by simpa using hok) hs hdec]
    simp
  | succ j ih =>
    intro n a w hfail hok
    obtain ⟨e, hsend, hretry⟩ := Send_transient svc w m hm (by simpa using hfail 0 (Nat.succ_pos j))
    have hn : j + 1 + n = (j + n) + 1 := by omega
    rw [attemptLoop, hsend]
    simp only [hretry, if_true]
    rw [if_neg (by omega), hn,
      ih n (a + 1) ⟨w.calls + 1, w.delays ++ [backoff a]⟩
        (fun i hi => by
          have := hfail (i + 1) (by omega)
          simpa [Nat.add_assoc, Nat.add_comm 1 i] using this)
        (by simpa [Nat.add_assoc, Nat.add_comm 1 j] using hok)]
    simp [List.range_succ_eq_map, Nat.add_assoc, Nat.add_comm 1, Function.comp_def]

/-- What `Send` returns does not depend on the delays waited so far. -/
theorem Send_fst_delays (svc : Service) (m : Message) (c : Nat) (d1 d2 : List Nat) :
    (Send svc ⟨c, d1⟩ m).1 = (Send svc ⟨c, d2⟩ m).1 := by
  unfold Send
  by_cases hm : m.Validate = GoError.nil
  · simp only [hm, ne_eq, not_true_eq_false, if_false]
    cases svc c m with
    | failed reason => rfl
    | reply status body =>
      simp only
      by_cases hs : is2xx status = true
      · simp only [hs, if_true]
        cases parse body <;> rfl
      · simp only [hs, if_false]; rfl
  · simp only [ne_eq, hm, not_false_eq_true, if_true]

/-- A message with no target: `Send` returns `ErrInvalidParameters` and no
response, and leaves the wire as it was. -/
theorem Send_invalid (svc : Service) (w : Wire) (m : Message)
    (h : m.To = "" ∧ m.RegistrationIDs = [] ∧ m.Condition = "") :
    Send svc w m = (⟨none, none, some (.kind ErrInvalidParameters)⟩, w) := by
  have hv : m.Validate = ErrInvalidParameters := by
    unfold Message.Validate
    rw [if_pos h]
  have hne : ErrInvalidParameters ≠ GoError.nil := by decide
  simp [Send, hv, hne]

/-- A valid message answered by a status outside 2xx: `Send` returns the
generic send failure and no response, with one round trip made. -/
theorem Send_status_failure (svc : Service) (w : Wire) (m : Message) (status : Nat)
    (body : Option JSON) (hm : m.Validate = GoError.nil)
    (hreply : svc w.calls m = .reply status body) (hs : is2xx status = false) :
    Send svc w m = (⟨none, none, some (.sendFailure status)⟩, ⟨w.calls + 1, w.delays⟩) := by
  simp [Send, hm, hreply, hs]

/-- The retry loop against a service all of whose round trips fail transiently,
with `n + 1` attempts left: the loop returns what the last attempt returns,
after `n + 1` round trips and `n` waits. -/
theorem attemptLoop_exhausts (svc : Service) (backoff : Nat → Nat) (m : Message)
    (hm : m.Validate = GoError.nil) :
    ∀ (n a : Nat) (w : Wire),
      (∀ i, i < n + 1 → (svc (w.calls + i) m).transient = true) →
      attemptLoop svc backoff m (n + 1) a w =
        ((Send svc ⟨w.calls + n, w.delays⟩ m).1,
          ⟨w.calls + n + 1, w.delays ++ (List.range n).map (fun i => backoff (a + i))⟩) := by
  intro n
  induction n with
  | zero =>
    intro a w hfail
    obtain ⟨e, hsend, hretry⟩ :=
      Send_transient svc w m hm (by simpa using hfail 0 (Nat.succ_pos 0))
    have hw : (⟨w.calls + 0, w.delays⟩ : Wire) = w := rfl
    rw [attemptLoop, hw, hsend]
    simp [hretry]
  | succ n ih =>
    intro a w hfail
    obtain ⟨e, hsend, hretry⟩ :=
      Send_transient svc w m hm (by simpa using hfail 0 (Nat.succ_pos _))
    rw [attemptLoop, hsend]
    simp only [hretry, if_true]
    rw [if_neg (by omega),
      ih (a + 1) ⟨w.calls + 1, w.delays ++ [backoff a]⟩
        (fun i hi => by
          have := hfail (i + 1) (by omega)
          simpa [Nat.add_assoc, Nat.add_comm 1 i] using this)]
    have hc : w.calls + 1 + n = w.calls + (n + 1) := by omega
    simp only [hc]
    rw [Send_fst_delays svc m (w.calls + (n + 1)) (w.delays ++ [backoff a]) w.delays]
    simp [List.range_succ_eq_map, Nat.add_assoc, Nat.add_comm 1, Function.comp_def]

/-! ## Error taxonomy: classification and capability flags -/

/-- C1: `GetErrorByString` is total and is the table lookup with a default: the
table has the thirteen named keys; for a string that is a key the result is the
error value the table pairs with it; for every other string the result is
`ErrUnknown`; the result is never the nil error. -/
theorem GetErrorByString_table_lookup (s : String) :
    errKeys = ["MissingRegistration", "InvalidRegistration", "NotRegistered",
      "InvalidPackageName", "MismatchSenderId", "MessageTooBig", "InvalidDataKey",
      "InvalidTtl", "Unavailable", "InternalServerError", "DeviceMessageRateExceeded",
      "TopicsMessageRateExceeded", "InvalidParameters"] ∧
    (∀ kv ∈ errMap, s = kv.1 → GetErrorByString s = kv.2) ∧
    (s ∉ errKeys → GetErrorByString s = ErrUnknown) ∧
    GetErrorByString s ≠ GoError.nil := by
  refine ⟨rfl, ?_, GetErrorByString_of_not_key s, ?_⟩
  · intro kv hkv hs
    subst hs
    exact errMap_entries kv hkv
  · rcases GetErrorByString_cases s with ⟨_, h⟩ | ⟨_, h⟩
    · rw [h]; decide
    · have hall : ∀ kv ∈ errMap, kv.2 ≠ GoError.nil := by decide
      exact hall _ h

/-- Instance of C1 at the key `NotRegistered` and at a string that is no key. -/
theorem GetErrorByString_table_lookup_witness :
    GetErrorByString "NotRegistered" = ErrNotRegistered ∧
      GetErrorByString "SomethingElse" = ErrUnknown :=
  ⟨(GetErrorByString_table_lookup "NotRegistered").2.1 ("NotRegistered", ErrNotRegistered)
      (by decide) rfl,
    (GetErrorByString_table_lookup "SomethingElse").2.2.1 (by decide)⟩

/-- C2: `IsUnregisteredErrorByError` is true exactly for `ErrMissingRegistration`,
`ErrInvalidRegistration`, `ErrMismatchSenderID` and `ErrNotRegistered`: for every
error value, and so for the nil error and the fourteen values of the catalogue,
of which exactly these four pass. -/
theorem IsUnregisteredErrorByError_iff :
    (∀ e : GoError, IsUnregisteredErrorByError e = true ↔
      (e = ErrMissingRegistration ∨ e = ErrInvalidRegistration ∨
        e = ErrMismatchSenderID ∨ e = ErrNotRegistered)) ∧
    (GoError.nil :: catalogue).filter IsUnregisteredErrorByError =
      [ErrMissingRegistration, ErrInvalidRegistration, ErrNotRegistered,
        ErrMismatchSenderID] ∧
    IsUnregisteredErrorByError GoError.nil = false := by
  refine ⟨?_, by decide, by decide⟩
  intro e
  unfold IsUnregisteredErrorByError
  constructor
  · intro h
    by_contra hne
    rw [if_neg (by tauto)] at h
    exact Bool.false_ne_true h
  · intro h
    rw [if_pos (by tauto)]

/-- C3: the capability flags of the two sentinel types do not depend on the
message: a `connectionError` is temporary and a timeout, a `serverError` is
temporary and not a timeout; so `ErrUnavailable` has flags (true, true) and
`ErrInternalServerError` has flags (true, false). -/
theorem sentinel_capability_flags :
    (∀ s : String,
      connectionError.Temporary ⟨s⟩ = true ∧ connectionError.Timeout ⟨s⟩ = true ∧
      serverError.Temporary ⟨s⟩ = true ∧ serverError.Timeout ⟨s⟩ = false ∧
      (GoError.ofConnectionError ⟨s⟩).Temporary = some true ∧
      (GoError.ofConnectionError ⟨s⟩).Timeout = some true ∧
      (GoError.ofServerError ⟨s⟩).Temporary = some true ∧
      (GoError.ofServerError ⟨s⟩).Timeout = some false) ∧
    ErrUnavailable.Temporary = some true ∧ ErrUnavailable.Timeout = some true ∧
    ErrInternalServerError.Temporary = some true ∧
    ErrInternalServerError.Timeout = some false :=
  ⟨fun _ => ⟨rfl, rfl, rfl, rfl, rfl, rfl, rfl, rfl⟩, rfl, rfl, rfl, rfl⟩

/-- C4, as stated, fails: the table maps the key `Unavailable` to
`ErrUnavailable` (and `InternalServerError` to `ErrInternalServerError`), so it
is not true that no string is classified as a sentinel. -/
theorem sentinels_outside_table_fails :
    ¬ (∀ s : String, GetErrorByString s ≠ ErrUnavailable ∧
        GetErrorByString s ≠ ErrInternalServerError) := by
  intro h
  exact (h "Unavailable").1 (by decide)

/-- C4, amended: the two sentinels are values of the table, under the keys
`Unavailable` and `InternalServerError` and under no other: these two keys are
classified as `ErrUnavailable` and `ErrInternalServerError`, and every other
string is classified as neither. -/
theorem sentinels_in_table_only_at_their_keys (s : String)
    (h1 : s ≠ "Unavailable") (h2 : s ≠ "InternalServerError") :
    GetErrorByString "Unavailable" = ErrUnavailable ∧
    GetErrorByString "InternalServerError" = ErrInternalServerError ∧
    GetErrorByString s ≠ ErrUnavailable ∧
    GetErrorByString s ≠ ErrInternalServerError := by
  refine ⟨by decide, by decide, ?_, ?_⟩
  · rcases GetErrorByString_cases s with ⟨_, h⟩ | ⟨_, h⟩
    · rw [h]; decide
    · intro heq
      rw [heq] at h
      have hall : ∀ kv ∈ errMap, kv.2 = ErrUnavailable → kv.1 = "Unavailable" := by decide
      exact h1 (hall _ h rfl)
  · rcases GetErrorByString_cases s with ⟨_, h⟩ | ⟨_, h⟩
    · rw [h]; decide
    · intro heq
      rw [heq] at h
      have hall : ∀ kv ∈ errMap, kv.2 = ErrInternalServerError →
          kv.1 = "InternalServerError" := by decide
      exact h2 (hall _ h rfl)

/-- Instance of the amended C4 at the key `NotRegistered`. -/
theorem sentinels_in_table_only_at_their_keys_witness :
    GetErrorByString "NotRegistered" ≠ ErrUnavailable ∧
      GetErrorByString "NotRegistered" ≠ ErrInternalServerError :=
  (sentinels_in_table_only_at_their_keys "NotRegistered" (by decide) (by decide)).2.2

/-- C5, as stated, fails: the two rate-limit kinds are plain `errors.New`
values and expose no `Temporary` capability, so not all four transient kinds
carry a true temporary flag. -/
theorem transient_kinds_all_temporary_fails :
    ¬ (∀ e ∈ [ErrUnavailable, ErrInternalServerError, ErrDeviceMessageRateExceeded,
        ErrTopicsMessageRateExceeded], GoError.Temporary e = some true) := by
  decide

/-- C5, amended: of the four transient kinds, `ErrUnavailable` and
`ErrInternalServerError` expose a `Temporary` capability whose value is true;
`ErrDeviceMessageRateExceeded` and `ErrTopicsMessageRateExceeded` expose
neither a `Temporary` nor a `Timeout` capability. -/
theorem transient_kinds_temporary_flags :
    ErrUnavailable.Temporary = some true ∧
    ErrInternalServerError.Temporary = some true ∧
    ErrDeviceMessageRateExceeded.Temporary = none ∧
    ErrDeviceMessageRateExceeded.Timeout = none ∧
    ErrTopicsMessageRateExceeded.Temporary = none ∧
    ErrTopicsMessageRateExceeded.Timeout = none :=
  ⟨rfl, rfl, rfl, rfl, rfl, rfl⟩

/-- C6: none of the eight permanent kinds is a `connectionError` or
`serverError` value, so none carries a `Temporary` or a `Timeout` capability;
in particular every error value for which `IsUnregisteredErrorByError` is true
carries neither. -/
theorem permanent_kinds_carry_no_flag (e : GoError) :
    (e ∈ [ErrMissingRegistration, ErrInvalidRegistration, ErrMismatchSenderID,
        ErrNotRegistered, ErrInvalidPackageName, ErrMessageTooBig, ErrInvalidDataKey,
        ErrInvalidTTL] →
      (∃ p, e = GoError.ofErrorString p) ∧ e.Temporary = none ∧ e.Timeout = none) ∧
    (IsUnregisteredErrorByError e = true → e.Temporary = none ∧ e.Timeout = none) := by
  constructor
  · intro h
    simp only [List.mem_cons, List.mem_singleton, List.not_mem_nil, or_false] at h
    rcases h with h | h | h | h | h | h | h | h <;> subst h <;>
      exact ⟨⟨_, rfl⟩, rfl, rfl⟩
  · intro h
    unfold IsUnregisteredErrorByError at h
    by_cases hc : e = ErrNotRegistered ∨ e = ErrMismatchSenderID ∨
        e = ErrMissingRegistration ∨ e = ErrInvalidRegistration
    · rcases hc with h | h | h | h <;> subst h <;> exact ⟨rfl, rfl⟩
    · rw [if_neg hc] at h
      exact absurd h Bool.false_ne_true

/-- Instance of C6 at `ErrNotRegistered`. -/
theorem permanent_kinds_carry_no_flag_witness :
    IsUnregisteredErrorByError ErrNotRegistered = true ∧
      ErrNotRegistered.Temporary = none ∧ ErrNotRegistered.Timeout = none :=
  ⟨by decide, (permanent_kinds_carry_no_flag ErrNotRegistered).2 (by decide)⟩

/-- C7: a string that is not a key of the table is classified as `ErrUnknown`,
and `ErrUnknown` carries neither the `Temporary` nor the `Timeout` capability. -/
theorem unknown_code_not_retryable (s : String) (h : s ∉ errKeys) :
    GetErrorByString s = ErrUnknown ∧
    (GetErrorByString s).Temporary = none ∧ (GetErrorByString s).Timeout = none ∧
    ErrUnknown.Temporary = none ∧ ErrUnknown.Timeout = none := by
  rw [GetErrorByString_of_not_key s h]
  exact ⟨rfl, rfl, rfl, rfl, rfl⟩

/-- Instance of C7 at the code `QuotaExceeded`, which the table does not hold. -/
theorem unknown_code_not_retryable_witness :
    "QuotaExceeded" ∉ errKeys ∧ GetErrorByString "QuotaExceeded" = ErrUnknown ∧
      (GetErrorByString "QuotaExceeded").Temporary = none :=
  ⟨by decide, (unknown_code_not_retryable "QuotaExceeded" (by decide)).1,
    (unknown_code_not_retryable "QuotaExceeded" (by decide)).2.1⟩

/-! ## Response parser, send pipeline, retry controller -/

/-- C8: a body whose top-level `results` member is a JSON object is not decoded
into `Response`, whatever its other members; and `Send`, for a valid message
answered by a 2xx status with such a body, returns a nil response together with
a non-nil error, the parse error. -/
theorem results_object_rejected (svc : Service) (w : Wire) (m : Message)
    (status : Nat) (kvs o : List (String × JSON))
    (hres : ("results", JSON.obj o) ∈ kvs)
    (hm : m.Validate = GoError.nil) (hs : is2xx status = true)
    (hreply : svc w.calls m = .reply status (some (.obj kvs))) :
    (∃ e, decodeResponse (.obj kvs) = .error e) ∧
    (Send svc w m).1.resp = none ∧
    (∃ e, (Send svc w m).1.err = some (.parse e)) ∧
    (Send svc w m).2.calls = w.calls + 1 := by
  obtain ⟨e, he⟩ := decodeFields_results_object o kvs Response.zero hres
  have hdec : decodeResponse (.obj kvs) = .error e := he
  rw [Send_parse_error svc w m status (.obj kvs) e hm hreply hs hdec]
  exact ⟨⟨e, hdec⟩, rfl, ⟨e, rfl⟩, rfl⟩

/-- Instance of C8 at the body of the test `send=invalid-response`. -/
theorem results_object_rejected_witness :
    (∃ e, decodeResponse invalidBody = .error e) ∧
    (Send invalidServer ⟨0, []⟩ testMessage).1.resp = none ∧
    (∃ e, (Send invalidServer ⟨0, []⟩ testMessage).1.err = some (.parse e)) ∧
    (Send invalidServer ⟨0, []⟩ testMessage).2.calls = 0 + 1 :=
  results_object_rejected invalidServer ⟨0, []⟩ testMessage 200 invalidMembers
    [("message_id", .str "q1w2e3r4"), ("registration_id", .str "t5y6u7i8o9"),
      ("error", .str "")]
    (by simp [invalidMembers]) (by decide) (by decide) rfl

/-- C9: a well-shaped body decodes into the response that holds the values of
its members unchanged (zero or empty for an absent member, the elements of
`results` in their order with their three strings); `Send`, for a valid message
answered by a 2xx status with such a body, returns that response, the body and
a nil error; a body with `success` 1 and `failure` 0 gives `Success = 1` and
`Failure = 0`; and no count is checked against `results`: any two counts in
range are accepted next to an empty `results`. -/
theorem wellShaped_body_verbatim (svc : Service) (w : Wire) (m : Message)
    (status : Nat) (kvs : List (String × JSON))
    (hshape : wellShaped kvs = true)
    (hm : m.Validate = GoError.nil) (hs : is2xx status = true)
    (hreply : svc w.calls m = .reply status (some (.obj kvs))) :
    decodeResponse (.obj kvs) = .ok (verbatim kvs) ∧
    (Send svc w m).1.resp = some (verbatim kvs) ∧
    (Send svc w m).1.raw = some (.obj kvs) ∧
    (Send svc w m).1.err = none ∧
    (kvs.lookup "success" = some (.num 1) → kvs.lookup "failure" = some (.num 0) →
      (verbatim kvs).Success = 1 ∧ (verbatim kvs).Failure = 0) ∧
    (∀ a b : Int, inInt64 a = true → inInt64 b = true →
      decodeResponse (.obj [("success", .num a), ("failure", .num b), ("results", .arr [])]) =
        .ok { Response.zero with Success := a, Failure := b }) := by
  have hdec := decodeResponse_wellShaped kvs hshape
  rw [Send_success svc w m status (.obj kvs) (verbatim kvs) hm hreply hs hdec]
  refine ⟨hdec, rfl, rfl, rfl, ?_, ?_⟩
  · intro h1 h0
    simp [verbatim, h1, h0, intOf]
  · intro a b ha hb
    simp [decodeResponse, decodeFields, Response.setField, decodeInt, ha, hb, Except.map,
      decodeResults, decodeEach, Response.zero]

/-- Instance of C9 at the body of the test `send=success`. -/
theorem wellShaped_body_verbatim_witness :
    wellShaped successMembers = true ∧
    (Send successServer ⟨0, []⟩ testMessage).1.resp =
      some ⟨0, 1, 0, 0, [⟨"q1w2e3r4", "t5y6u7i8o9", ""⟩], [], 0, ""⟩ ∧
    (Send successServer ⟨0, []⟩ testMessage).1.err = none :=
  ⟨by decide,
    (wellShaped_body_verbatim successServer ⟨0, []⟩ testMessage 200 successMembers
      (by decide) (by decide) (by decide) rfl).2.1,
    (wellShaped_body_verbatim successServer ⟨0, []⟩ testMessage 200 successMembers
      (by decide) (by decide) (by decide) rfl).2.2.2.1⟩

/-- C10: `SendWithRetry` stops at the first success: for a valid message and
`1 ≤ k ≤ N`, against a service whose round trips `1 .. k-1` fail transiently (a
transport failure or a status outside 2xx) and whose round trip `k` answers a
2xx status with a body that decodes to `r`, `SendWithRetry` with `N` attempts
returns `r`, that body and a nil error, makes exactly `k` round trips, and
waits `k - 1` times, after the attempts `1 .. k-1`. -/
theorem SendWithRetry_stops_at_first_success (svc : Service) (backoff : Nat → Nat)
    (w : Wire) (m : Message) (N k status : Nat) (body : JSON) (r : Response)
    (hm : m.Validate = GoError.nil) (hk : 1 ≤ k) (hkN : k ≤ N)
    (hfail : ∀ i, i + 1 < k → (svc (w.calls + i) m).transient = true)
    (hreply : svc (w.calls + (k - 1)) m = .reply status (some body))
    (hs : is2xx status = true) (hdec : decodeResponse body = .ok r) :
    (SendWithRetry svc backoff w m N).1 = ⟨some r, some body, none⟩ ∧
    (SendWithRetry svc backoff w m N).2.calls = w.calls + k ∧
    (SendWithRetry svc backoff w m N).2.delays =
      w.delays ++ (List.range (k - 1)).map (fun i => backoff (1 + i)) := by
  obtain ⟨j, rfl⟩ : ∃ j, k = j + 1 := ⟨k - 1, by omega⟩
  obtain ⟨n, rfl⟩ : ∃ n, N = j + n + 1 := ⟨N - (j + 1), by omega⟩
  have h := attemptLoop_success_after svc backoff m status body r hm hs hdec j n 1 w
    (fun i hi => hfail i (by omega)) (by simpa using hreply)
  unfold SendWithRetry
  rw [h]
  exact ⟨rfl, rfl, rfl⟩

/-- Instance of C10 at the test `send_with_retry=success_retry`: `k = 3`,
`N = 4`, two answers with status 500 and then status 200. -/
theorem SendWithRetry_stops_at_first_success_witness :
    (SendWithRetry retryServer (fun i => i * i) ⟨0, []⟩ testMessage 4).1 =
      ⟨some (verbatim successMembers), some successBody, none⟩ ∧
    (SendWithRetry retryServer (fun i => i * i) ⟨0, []⟩ testMessage 4).2.calls = 0 + 3 ∧
    (SendWithRetry retryServer (fun i => i * i) ⟨0, []⟩ testMessage 4).2.delays =
      [] ++ (List.range (3 - 1)).map (fun i => (1 + i) * (1 + i)) :=
  SendWithRetry_stops_at_first_success retryServer (fun i => i * i) ⟨0, []⟩ testMessage
    4 3 200 successBody (verbatim successMembers) (by decide) (by decide) (by decide)
    (by
      intro i hi
      have hi2 : i < 2 := by omega
      interval_cases i <;> rfl)
    rfl (by decide) rfl

/-- C11: `SendWithRetry` exhausts its attempts on persistent retryable
failure: for a valid message and `N ≥ 1`, against a service all of whose round
trips fail transiently (a transport failure or a status outside 2xx),
`SendWithRetry` with `N` attempts makes exactly `N` round trips, waits `N - 1`
times, and returns what the `N`-th attempt returns: a nil response and a
non-nil error, that attempt's own error value. -/
theorem SendWithRetry_exhausts (svc : Service) (backoff : Nat → Nat) (w : Wire)
    (m : Message) (N : Nat) (hm : m.Validate = GoError.nil) (hN : 1 ≤ N)
    (hfail : ∀ i, i < N → (svc (w.calls + i) m).transient = true) :
    (SendWithRetry svc backoff w m N).2.calls = w.calls + N ∧
    (SendWithRetry svc backoff w m N).1 = (Send svc ⟨w.calls + (N - 1), w.delays⟩ m).1 ∧
    (SendWithRetry svc backoff w m N).1.resp = none ∧
    (SendWithRetry svc backoff w m N).1.err ≠ none ∧
    (SendWithRetry svc backoff w m N).1.err =
      (Send svc ⟨w.calls + (N - 1), w.delays⟩ m).1.err ∧
    (SendWithRetry svc backoff w m N).2.delays =
      w.delays ++ (List.range (N - 1)).map (fun i => backoff (1 + i)) := by
  obtain ⟨n, rfl⟩ : ∃ n, N = n + 1 := ⟨N - 1, by omega⟩
  have h := attemptLoop_exhausts svc backoff m hm n 1 w hfail
  obtain ⟨e, hsend, _⟩ := Send_transient svc ⟨w.calls + n, w.delays⟩ m hm
    (hfail n (Nat.lt_succ_self n))
  have hn : n + 1 - 1 = n := by omega
  unfold SendWithRetry
  rw [h, hn]
  refine ⟨(Nat.add_assoc w.calls n 1), rfl, ?_, ?_, rfl, rfl⟩
  · show (Send svc ⟨w.calls + n, w.delays⟩ m).1.resp = none
    rw [hsend]
  · show (Send svc ⟨w.calls + n, w.delays⟩ m).1.err ≠ none
    rw [hsend]
    simp

/-- Instances of C11 at the tests `send_with_retry=failure` (`N = 2`, status
400) and `send_with_retry=failure_retry` (`N = 3`, unreachable host). -/
theorem SendWithRetry_exhausts_witness :
    ((SendWithRetry failureServer (fun i => i * i) ⟨0, []⟩ testMessage 2).2.calls = 0 + 2 ∧
      (SendWithRetry failureServer (fun i => i * i) ⟨0, []⟩ testMessage 2).1.resp = none ∧
      (SendWithRetry failureServer (fun i => i * i) ⟨0, []⟩ testMessage 2).1.err =
        some (.sendFailure 400)) ∧
    ((SendWithRetry unreachableHost (fun i => i * i) ⟨0, []⟩ testMessage 3).2.calls = 0 + 3 ∧
      (SendWithRetry unreachableHost (fun i => i * i) ⟨0, []⟩ testMessage 3).1.resp = none ∧
      (SendWithRetry unreachableHost (fun i => i * i) ⟨0, []⟩ testMessage 3).1.err =
        some (.kind (.ofConnectionError ⟨"timeout"⟩))) :=
  ⟨⟨(SendWithRetry_exhausts failureServer (fun i => i * i) ⟨0, []⟩ testMessage 2
        (by decide) (by decide) (fun _ _ => rfl)).1,
      (SendWithRetry_exhausts failureServer (fun i => i * i) ⟨0, []⟩ testMessage 2
        (by decide) (by decide) (fun _ _ => rfl)).2.2.1,
      (SendWithRetry_exhausts failureServer (fun i => i * i) ⟨0, []⟩ testMessage 2
        (by decide) (by decide) (fun _ _ => rfl)).2.2.2.2.1⟩,
    ⟨(SendWithRetry_exhausts unreachableHost (fun i => i * i) ⟨0, []⟩ testMessage 3
        (by decide) (by decide) (fun _ _ => rfl)).1,
      (SendWithRetry_exhausts unreachableHost (fun i => i * i) ⟨0, []⟩ testMessage 3
        (by decide) (by decide) (fun _ _ => rfl)).2.2.1,
      (SendWithRetry_exhausts unreachableHost (fun i => i * i) ⟨0, []⟩ testMessage 3
        (by decide) (by decide) (fun _ _ => rfl)).2.2.2.2.1⟩⟩

/-- C12: a message with no target is rejected before any network activity:
`Send` returns `ErrInvalidParameters` with a nil response and makes no round
trip, whatever the service; `SendWithRetry`, with at least one attempt, returns
the same error at once, with no round trip and no wait. -/
theorem no_target_rejected (svc : Service) (backoff : Nat → Nat) (w : Wire)
    (m : Message) (N : Nat)
    (h : m.To = "" ∧ m.RegistrationIDs = [] ∧ m.Condition = "") (hN : 1 ≤ N) :
    m.Validate = ErrInvalidParameters ∧
    Send svc w m = (⟨none, none, some (.kind ErrInvalidParameters)⟩, w) ∧
    (Send svc w m).2.calls = w.calls ∧
    SendWithRetry svc backoff w m N =
      (⟨none, none, some (.kind ErrInvalidParameters)⟩, w) := by
  have hsend := Send_invalid svc w m h
  refine ⟨?_, hsend, by rw [hsend], ?_⟩
  · unfold Message.Validate
    rw [if_pos h]
  · obtain ⟨n, rfl⟩ : ∃ n, N = n + 1 := ⟨N - 1, by omega⟩
    unfold SendWithRetry
    rw [attemptLoop, hsend]
    simp [SendError.retryable, ErrInvalidParameters, errorsNew, GoError.Temporary]

/-- Instance of C12 at the test `send=invalid_message`: `Send(&Message{})`,
against a server that would answer with a success. -/
theorem no_target_rejected_witness :
    Send successServer ⟨0, []⟩ emptyMessage =
      (⟨none, none, some (.kind ErrInvalidParameters)⟩, ⟨0, []⟩) ∧
    SendWithRetry successServer (fun i => i * i) ⟨0, []⟩ emptyMessage 3 =
      (⟨none, none, some (.kind ErrInvalidParameters)⟩, ⟨0, []⟩) :=
  ⟨(no_target_rejected successServer (fun i => i * i) ⟨0, []⟩ emptyMessage 3
      ⟨rfl, rfl, rfl⟩ (by decide)).2.1,
    (no_target_rejected successServer (fun i => i * i) ⟨0, []⟩ emptyMessage 3
      ⟨rfl, rfl, rfl⟩ (by decide)).2.2.2⟩

/-- C13: a status outside 2xx never yields a response: for a valid message
answered by a status outside `200..299`, whatever the body, `Send` returns a
nil response and a non-nil error, the generic send failure for that status, and
the body is not parsed: the result is the same for every body. -/
theorem non2xx_no_response (svc svc2 : Service) (w : Wire) (m : Message)
    (status : Nat) (body body2 : Option JSON)
    (hm : m.Validate = GoError.nil) (hs : ¬ (200 ≤ status ∧ status ≤ 299))
    (hreply : svc w.calls m = .reply status body)
    (hreply2 : svc2 w.calls m = .reply status body2) :
    (Send svc w m).1.resp = none ∧
    (Send svc w m).1.raw = none ∧
    (Send svc w m).1.err = some (.sendFailure status) ∧
    (Send svc w m).1.err ≠ none ∧
    (Send svc w m).2.calls = w.calls + 1 ∧
    Send svc2 w m = Send svc w m := by
  have h2 : is2xx status = false := by
    unfold is2xx
    by_cases h200 : 200 ≤ status
    · have : ¬ status ≤ 299 := fun h => hs ⟨h200, h⟩
      simp [this]
    · simp [h200]
  rw [Send_status_failure svc w m status body hm hreply h2,
    Send_status_failure svc2 w m status body2 hm hreply2 h2]
  exact ⟨rfl, rfl, rfl, by simp, rfl, rfl⟩

/-- Instance of C13 at the test `send=failure`: status 400 with an empty body,
compared with status 400 and the success body. -/
theorem non2xx_no_response_witness :
    (Send failureServer ⟨0, []⟩ testMessage).1.resp = none ∧
    (Send failureServer ⟨0, []⟩ testMessage).1.err = some (.sendFailure 400) ∧
    Send (fun _ _ => .reply 400 (some successBody)) ⟨0, []⟩ testMessage =
      Send failureServer ⟨0, []⟩ testMessage :=
  ⟨(non2xx_no_response failureServer (fun _ _ => .reply 400 (some successBody)) ⟨0, []⟩
      testMessage 400 none (some successBody) (by decide) (by decide) rfl rfl).1,
    (non2xx_no_response failureServer (fun _ _ => .reply 400 (some successBody)) ⟨0, []⟩
      testMessage 400 none (some successBody) (by decide) (by decide) rfl rfl).2.2.1,
    (non2xx_no_response failureServer (fun _ _ => .reply 400 (some successBody)) ⟨0, []⟩
      testMessage 400 none (some successBody) (by decide) (by decide) rfl rfl).2.2.2.2.2⟩

/-! ## Response shapes -/

/-- C14, as stated, fails: a decoded response need not have exactly one shape
that holds data.  A reply with two counts and no list decodes to a response in
which no shape holds data, and a body with a `results` array next to a
`message_id` decodes to a response in which two shapes hold data. -/
theorem exactly_one_shape_fails :
    (¬ ∀ (body : JSON) (r : Response), decodeResponse body = .ok r → r.shapes = 1) ∧
    (∃ r, decodeResponse (.obj groupAllDelivered) = .ok r ∧ r.shapes = 0) ∧
    (∃ r, decodeResponse (.obj resultsAndTopic) = .ok r ∧ r.shapes = 2) := by
  refine ⟨?_, ⟨verbatim groupAllDelivered, rfl, by decide⟩,
    ⟨verbatim resultsAndTopic, rfl, by decide⟩⟩
  intro h
  have h0 := h (.obj groupAllDelivered) (verbatim groupAllDelivered) rfl
  exact absurd h0 (by decide)

/-- C14, amended: the response decoded from a well-shaped body holds data in
exactly the shapes the body carries data for: the multicast shape when the
`results` array has an element, the device-group shape when the
`failed_registration_ids` array has an element, the topic shape when
`message_id` is a number other than zero or `error` a string other than the
empty one; so exactly one shape holds data exactly when the body carries data
for exactly one. -/
theorem decoded_shapes_follow_body (kvs : List (String × JSON))
    (h : wellShaped kvs = true) :
    ∃ r, decodeResponse (.obj kvs) = .ok r ∧
      r.multicastShape = bodyMulticast kvs ∧
      r.deviceGroupShape = bodyDeviceGroup kvs ∧
      r.topicShape = bodyTopic kvs ∧
      r.shapes = bodyShapes kvs ∧
      (r.shapes = 1 ↔ bodyShapes kvs = 1) := by
  obtain ⟨h1, h2, h3⟩ := verbatim_shapes kvs
  have hs : (verbatim kvs).shapes = bodyShapes kvs := by
    unfold Response.shapes bodyShapes
    rw [h1, h2, h3]
  exact ⟨verbatim kvs, decodeResponse_wellShaped kvs h, h1, h2, h3, hs, by rw [hs]⟩

/-- Instance of the amended C14 at the body of the test `send=success`, which
carries multicast data only. -/
theorem decoded_shapes_follow_body_witness :
    wellShaped successMembers = true ∧ bodyShapes successMembers = 1 ∧
    ∃ r, decodeResponse (.obj successMembers) = .ok r ∧ r.shapes = 1 :=
  ⟨by decide, by decide,
    (decoded_shapes_follow_body successMembers (by decide)).elim
      (fun r hr => ⟨r, hr.1, hr.2.2.2.2.2.2 (by decide)⟩)⟩

/-! ## Error taxonomy: the table as a relation -/

/-- C15, as stated, fails: `ErrUnknown` is a kind of the catalogue and no key
of the table is classified as `ErrUnknown`. -/
theorem every_kind_has_a_code_fails :
    ¬ (∀ e ∈ catalogue, ∃ s, s ∈ errKeys ∧ GetErrorByString s = e) := by
  intro h
  obtain ⟨s, hs, he⟩ := h ErrUnknown (by decide)
  have hall : ∀ k ∈ errKeys, GetErrorByString k ≠ ErrUnknown := by decide
  exact hall s hs he

/-- C15, amended: each of the thirteen kinds of the catalogue other than
`ErrUnknown` is the classification of a key of the table; `ErrUnknown` is the
classification of no key: it is what the strings outside the table get. -/
theorem every_kind_but_unknown_has_a_code (e : GoError) (he : e ∈ catalogue)
    (hne : e ≠ ErrUnknown) :
    (∃ s, s ∈ errKeys ∧ GetErrorByString s = e) ∧
    (∀ s, s ∈ errKeys → GetErrorByString s ≠ ErrUnknown) ∧
    (∀ s, s ∉ errKeys → GetErrorByString s = ErrUnknown) := by
  refine ⟨?_, by decide, GetErrorByString_of_not_key⟩
  have hall : ∀ e ∈ catalogue, e ≠ ErrUnknown →
      ∃ kv, kv ∈ errMap ∧ kv.2 = e := by decide
  obtain ⟨kv, hkv, hv⟩ := hall e he hne
  exact ⟨kv.1, List.mem_map.2 ⟨kv, hkv, rfl⟩, by rw [errMap_entries kv hkv, hv]⟩

/-- Instance of the amended C15 at `ErrMismatchSenderID`. -/
theorem every_kind_but_unknown_has_a_code_witness :
    ∃ s, s ∈ errKeys ∧ GetErrorByString s = ErrMismatchSenderID :=
  (every_kind_but_unknown_has_a_code ErrMismatchSenderID (by decide) (by decide)).1

/-- C16: the two unregistered predicates agree: for every string `s`,
`IsUnregisteredErrorByErrorString s` is `IsUnregisteredErrorByError` of the
classification of `s`; it is true exactly for the four codes `NotRegistered`,
`MismatchSenderId`, `MissingRegistration` and `InvalidRegistration`, and false
for every string that is not a key of the table. -/
theorem IsUnregisteredErrorByErrorString_agrees (s : String) :
    IsUnregisteredErrorByErrorString s = IsUnregisteredErrorByError (GetErrorByString s) ∧
    (IsUnregisteredErrorByErrorString s = true ↔
      (s = "NotRegistered" ∨ s = "MismatchSenderId" ∨ s = "MissingRegistration" ∨
        s = "InvalidRegistration")) ∧
    (s ∉ errKeys → IsUnregisteredErrorByErrorString s = false) := by
  have hagree : IsUnregisteredErrorByErrorString s =
      IsUnregisteredErrorByError (GetErrorByString s) := rfl
  refine ⟨hagree, ?_, ?_⟩
  · rw [hagree]
    constructor
    · intro h
      rcases GetErrorByString_cases s with ⟨_, hu⟩ | ⟨_, hm⟩
      · rw [hu] at h
        exact absurd h (by decide)
      · have hall : ∀ kv ∈ errMap, IsUnregisteredErrorByError kv.2 = true →
            (kv.1 = "NotRegistered" ∨ kv.1 = "MismatchSenderId" ∨
              kv.1 = "MissingRegistration" ∨ kv.1 = "InvalidRegistration") := by decide
        exact hall _ hm h
    · intro h
      rcases h with h | h | h | h <;> subst h <;> decide
  · intro h
    rw [hagree, GetErrorByString_of_not_key s h]
    decide

/-- Instance of C16 at a code that the table does not hold. -/
theorem IsUnregisteredErrorByErrorString_agrees_witness :
    IsUnregisteredErrorByErrorString "QuotaExceeded" = false :=
  (IsUnregisteredErrorByErrorString_agrees "QuotaExceeded").2.2 (by decide)

/-- C17: the table is injective and never gives the unknown kind: two distinct
keys are classified as distinct error values, no key is classified as
`ErrUnknown`, and so a string is classified as `ErrUnknown` exactly when it is
not a key of the table. -/
theorem errMap_injective (s1 s2 : String) :
    (s1 ∈ errKeys → s2 ∈ errKeys → s1 ≠ s2 →
      GetErrorByString s1 ≠ GetErrorByString s2) ∧
    (s1 ∈ errKeys → GetErrorByString s1 ≠ ErrUnknown) ∧
    (GetErrorByString s1 = ErrUnknown ↔ s1 ∉ errKeys) := by
  have hkey : ∀ k ∈ errKeys, GetErrorByString k ≠ ErrUnknown := by decide
  refine ⟨?_, hkey s1, ?_⟩
  · intro h1 h2 hne heq
    have hinj : ∀ a ∈ errMap, ∀ b ∈ errMap, a.2 = b.2 → a.1 = b.1 := by decide
    rcases GetErrorByString_cases s1 with ⟨hn, _⟩ | ⟨_, hm1⟩
    · exact hn h1
    · rcases GetErrorByString_cases s2 with ⟨hn, _⟩ | ⟨_, hm2⟩
      · exact hn h2
      · exact hne (hinj _ hm1 _ hm2 heq)
  · constructor
    · intro hu hk
      exact hkey s1 hk hu
    · exact GetErrorByString_of_not_key s1

/-- Instance of C17 at the keys `Unavailable` and `InternalServerError`. -/
theorem errMap_injective_witness :
    GetErrorByString "Unavailable" ≠ GetErrorByString "InternalServerError" ∧
    GetErrorByString "Unavailable" ≠ ErrUnknown :=
  ⟨(errMap_injective "Unavailable" "InternalServerError").1 (by decide) (by decide)
      (by decide),
    (errMap_injective "Unavailable" "InternalServerError").2.1 (by decide)⟩

/-- C18: the empty error string of a successful result is not classified as
success: `GetErrorByString ""` is `ErrUnknown`, which is not the nil error,
`IsUnregisteredErrorByErrorString ""` is false, and for every result whose
`Error` is empty the classification of its `Error` is `ErrUnknown`. -/
theorem empty_error_is_unknown (r : Result) (h : r.Error = "") :
    GetErrorByString "" = ErrUnknown ∧ ErrUnknown ≠ GoError.nil ∧
    GetErrorByString "" ≠ GoError.nil ∧
    IsUnregisteredErrorByErrorString "" = false ∧
    GetErrorByString r.Error = ErrUnknown ∧
    IsUnregisteredErrorByErrorString r.Error = false := by
  rw [h]
  exact ⟨by decide, by decide, by decide, by decide, by decide, by decide⟩

/-- Instance of C18 at the result of the test `send=success`. -/
theorem empty_error_is_unknown_witness :
    GetErrorByString (Result.mk "q1w2e3r4" "t5y6u7i8o9" "").Error = ErrUnknown :=
  (empty_error_is_unknown ⟨"q1w2e3r4", "t5y6u7i8o9", ""⟩ rfl).2.2.2.2.1

end fcm
